import Mathlib

/-!
Shallow embedding of the driver-lifecycle / configuration layer of a
Selenium-based UI test framework, and proofs of its specified properties.

Embedded modules:
* `config/environment_manager.py` — `get_config`, the `EnvironmentConfig`
  record and the per-name config cache;
* `drivers/browser_factory.py` — `BrowserFactory.create` name validation
  and dispatch;
* `drivers/browser_options/chrome_options.py`, `edge_options.py` — the
  Chromium-family options builders (modelled as the ordered list of
  `add_argument` flags they install);
* `drivers/driver_manager.py` — `DriverManager.start` / `stop`, modelled
  as state transformers that also emit the ordered trace of effects they
  perform on the browser session.
-/

/- ## Python string primitives

`str.lower`, `str.upper` and `str.strip` restricted to the ASCII inputs this
code base uses (environment names and browser names). -/

/-- Python `s.lower()`: lowercase every character. -/
def pyLower (s : String) : String := String.mk (s.data.map Char.toLower)

/-- Python `s.upper()`: uppercase every character. -/
def pyUpper (s : String) : String := String.mk (s.data.map Char.toUpper)

/-- Python `s.strip()`: drop leading and trailing whitespace. -/
def pyStrip (s : String) : String :=
  String.mk (((s.data.dropWhile Char.isWhitespace).reverse.dropWhile
    Char.isWhitespace).reverse)

/-- The normalization `s.lower().strip()` used by both `get_config`
(`environment_manager.py` line 83) and `BrowserFactory.create`
(`browser_factory.py` line 72). -/
def pyNormalize (s : String) : String := pyStrip (pyLower s)

/-- Python truthiness test `not x` for an `Optional[str]`: `None` and the
empty string are falsy, every other string is truthy. -/
def pyFalsy : Option String → Bool
  | none => true
  | some s => s = ""

/-- `pat` occurs as a contiguous substring of `s` (used to state that an
error message "names" a variable or a browser). -/
def strContains (s pat : String) : Prop := pat.data <:+: s.data

instance (s pat : String) : Decidable (strContains s pat) := by
  unfold strContains; infer_instance

/- ## Options builders (`chrome_options.py`, `edge_options.py`)

Each builder is modelled as the ordered list of flags it passes to
`options.add_argument`. The experimental options (`excludeSwitches`,
`useAutomationExtension`, the download `prefs` dict) and the Chromium-binary
auto-detection act on other channels of the `Options` object and play no
role in the argument-flag claims. -/

namespace ChromeOptionsBuilder

/-- `ChromeOptionsBuilder.build` argument flags, in source order
(`chrome_options.py` lines 35–122). -/
def build (headless : Bool) : List String :=
  (if headless then ["--headless=new"] else []) ++
  ["--no-sandbox",
   "--disable-dev-shm-usage",
   "--disable-extensions",
   "--disable-notifications",
   "--window-size=1920,1080",
   "--incognito"]

end ChromeOptionsBuilder

namespace EdgeOptionsBuilder

/-- `EdgeOptionsBuilder.build` argument flags, in source order
(`edge_options.py` lines 25–106). -/
def build (headless : Bool) : List String :=
  (if headless then ["--headless=new"] else []) ++
  ["--no-sandbox",
   "--disable-dev-shm-usage",
   "--disable-extensions",
   "--disable-notifications",
   "--window-size=1920,1080",
   "--inprivate"]

end EdgeOptionsBuilder

/- ## Browser factory (`browser_factory.py`)

`BrowserFactory.create` validates the normalized browser name and dispatches
to one of `_create_chrome`, `_create_firefox`, `_create_edge`. The dispatch
target is what the model returns; the live WebDriver construction inside the
`_create_*` methods (service lookup, binary overrides) is an external effect
outside every claim. After the validation check the Python `if/elif` chain
has no `else`, so the unreachable fall-through returns `None`; the model
mirrors it as `.ok none`. -/

inductive BrowserKind
  | chrome
  | firefox
  | edge
deriving Repr, DecidableEq

namespace BrowserFactory

/-- `BrowserFactory.SUPPORTED_BROWSERS` (`browser_factory.py` line 44). -/
def SUPPORTED_BROWSERS : List String := ["chrome", "firefox", "edge"]

/-- `BrowserFactory.create` (`browser_factory.py` lines 47–86): normalize,
validate against the supported set, dispatch. -/
def create (browser : String) : Except String (Option BrowserKind) :=
  let b := pyNormalize browser
  if b ∉ SUPPORTED_BROWSERS then
    .error ("Unsupported browser: '" ++ b ++ "'. Valid options: " ++
      String.intercalate ", " SUPPORTED_BROWSERS)
  else if b = "chrome" then .ok (some .chrome)
  else if b = "firefox" then .ok (some .firefox)
  else if b = "edge" then .ok (some .edge)
  else .ok none

end BrowserFactory

/- ## Environment configuration (`config/environment_manager.py`) -/

/-- `EnvironmentConfig` (`environment_manager.py` lines 21–46): frozen
dataclass of per-environment settings. -/
structure EnvironmentConfig where
  environment : String
  base_url : String
  api_url : String
  test_email : String
  test_password : String
  implicit_wait : Nat
  page_load_timeout : Nat
  log_level : String
deriving Repr, DecidableEq

/-- The process environment as seen through `os.getenv` after the one-time
`load_dotenv()` merge (the `_dotenv_loaded` flag only controls when `.env`
is merged; the model takes the merged mapping as given). -/
abbrev Env := List (String × String)

/-- `os.getenv`: first binding of the key, if any. -/
def getenv (env : Env) (k : String) : Option String :=
  (env.find? (fun p => p.1 == k)).map (·.2)

/-- Modelled from the spec: the per-environment settings modules
`config/environments/dev.py`, `staging.py`, `prod.py` imported by
`get_config` (`environment_manager.py` line 91) are not present under the
sources. Per the spec, implicit-wait and page-load-timeout are "process-wide
constants, identical across environments", matching `config/base_config.py`
(`IMPLICIT_WAIT = 10`, `PAGE_LOAD_TIMEOUT = 30`), plus an optional log
level. -/
structure ConfigModule where
  IMPLICIT_WAIT : Nat
  PAGE_LOAD_TIMEOUT : Nat
  LOG_LEVEL : String
deriving Repr, DecidableEq

/-- Modelled from the spec:
`importlib.import_module('config.environments.' + name)` succeeds exactly
for the valid environment names dev, staging and prod (the error message at
`environment_manager.py` line 95 lists the same three), yielding the fixed
per-environment constants. -/
def import_environment_module (name : String) : Option ConfigModule :=
  if name = "dev" ∨ name = "staging" ∨ name = "prod" then
    some { IMPLICIT_WAIT := 10, PAGE_LOAD_TIMEOUT := 30, LOG_LEVEL := "INFO" }
  else none

/-- The module-level `_config_cache` dict, most recent insertion first. -/
abbrev ConfigCache := List (String × EnvironmentConfig)

/-- Python dict lookup `cache[name]` on the model of `_config_cache`. -/
def cacheLookup (cache : ConfigCache) (k : String) : Option EnvironmentConfig :=
  (cache.find? (fun p => p.1 == k)).map (·.2)

/-- `get_config` (`environment_manager.py` lines 54–132). Explicit state
passing: takes the process environment and the current `_config_cache`,
returns either a `ValueError` message or the config together with the
updated cache. -/
def get_config (env : Env) (cache : ConfigCache) (env_name : Option String) :
    Except String (EnvironmentConfig × ConfigCache) :=
  let name0 := match env_name with
    | none => (getenv env "TEST_ENV").getD "dev"
    | some n => n
  let name := pyNormalize name0
  match cacheLookup cache name with
  | some c => .ok (c, cache)
  | none =>
    match import_environment_module name with
    | none =>
        .error ("Invalid environment: '" ++ name ++
          "'. Valid options: dev, staging, prod")
    | some config_module =>
        let pfx := pyUpper name ++ "_"
        let base_url := getenv env (pfx ++ "BASE_URL")
        let test_email := getenv env (pfx ++ "TEST_EMAIL")
        let test_password := getenv env (pfx ++ "TEST_PASSWORD")
        if pyFalsy base_url then
          .error (pfx ++ "BASE_URL not found in .env file. " ++
            "Please check your .env configuration.")
        else if pyFalsy test_email then
          .error (pfx ++ "TEST_EMAIL not found in .env file.")
        else if pyFalsy test_password then
          .error (pfx ++ "TEST_PASSWORD not found in .env file.")
        else
          let config : EnvironmentConfig := {
            environment := name
            base_url := base_url.getD ""
            api_url := (getenv env (pfx ++ "API_URL")).getD ""
            test_email := test_email.getD ""
            test_password := test_password.getD ""
            implicit_wait := config_module.IMPLICIT_WAIT
            page_load_timeout := config_module.PAGE_LOAD_TIMEOUT
            log_level := config_module.LOG_LEVEL }
          .ok (config, (name, config) :: cache)

/- ## Driver lifecycle (`drivers/driver_manager.py`) -/

/-- Abstract handle to a live browser session (a WebDriver instance). -/
abbrev Session := Nat

/-- One effect `DriverManager` performs against the factory or the
session. -/
inductive DriverAction where
  | create (browser : String) (headless : Bool)
  | implicitly_wait (seconds : Nat)
  | set_page_load_timeout (seconds : Nat)
  | get (url : String)
  | maximize_window
  | quit
  | warn (msg : String)
deriving Repr, DecidableEq

/-- `DriverManager` instance state (`driver_manager.py` lines 49–81): the
constructor arguments plus the `_driver` slot, initially `none`. The
`**browser_options` overrides are forwarded opaquely to the factory and are
not needed by any claim. -/
structure DriverManager where
  browser : String
  config : EnvironmentConfig
  headless : Bool
  _driver : Option Session
deriving Repr, DecidableEq

/-- `DriverManager.start` (`driver_manager.py` lines 83–137). The session the
factory would produce is injected as `newSession` (its construction is the
`create` action heading the trace). Result: (returned value or RuntimeError
message, manager state after the call, ordered effect trace). -/
def DriverManager.start (m : DriverManager) (newSession : Session) :
    Except String Session × DriverManager × List DriverAction :=
  match m._driver with
  | some _ =>
      (.error "Driver already started. Call stop() before starting again.",
       m, [])
  | none =>
      (.ok newSession,
       { m with _driver := some newSession },
       [.create m.browser m.headless,
        .implicitly_wait m.config.implicit_wait,
        .set_page_load_timeout m.config.page_load_timeout,
        .get m.config.base_url,
        .maximize_window])

/-- `DriverManager.stop` (`driver_manager.py` lines 139–165). `quitError`
injects whether the underlying `quit()` call raises (`some e` means an
exception with message `e`, caught and turned into the printed warning).
The result type has no error channel: `stop` never raises. -/
def DriverManager.stop (m : DriverManager) (quitError : Option String) :
    DriverManager × List DriverAction :=
  match m._driver with
  | none => (m, [])
  | some _ =>
      match quitError with
      | none => ({ m with _driver := none }, [.quit])
      | some e =>
          ({ m with _driver := none },
           [.quit, .warn ("Warning: Error during driver cleanup: " ++ e)])

/- ## Concrete fixtures used by the witnesses -/

/-- The environment of the spec's end-to-end scenario: the three required
`DEV_*` variables set. -/
def envDev : Env :=
  [("DEV_BASE_URL", "https://example.test/login"),
   ("DEV_TEST_EMAIL", "a@b.com"),
   ("DEV_TEST_PASSWORD", "secret")]

/-- The config `get_config` resolves from `envDev` for "dev". -/
def cfgDev : EnvironmentConfig :=
  { environment := "dev"
    base_url := "https://example.test/login"
    api_url := ""
    test_email := "a@b.com"
    test_password := "secret"
    implicit_wait := 10
    page_load_timeout := 30
    log_level := "INFO" }

/-- A fresh (not yet started) manager over `cfgDev`. -/
def mgrFresh : DriverManager :=
  { browser := "chrome", config := cfgDev, headless := true, _driver := none }

/-- A manager holding a started session. -/
def mgrRunning : DriverManager :=
  { browser := "chrome", config := cfgDev, headless := true,
    _driver := some 5 }

deriving instance DecidableEq for Except

/- ## Helper lemmas -/

theorem strData_append (a b : String) : (a ++ b).data = a.data ++ b.data := by
  cases a; cases b; rfl

theorem strContains_append_left (s t pat : String) (h : strContains t pat) :
    strContains (s ++ t) pat := by
  unfold strContains at *
  rw [strData_append]
  exact h.trans (List.suffix_append s.data t.data).isInfix

theorem strContains_append_key (x y z w : String) (h : y.data <+: z.data) :
    strContains (x ++ z ++ w) (x ++ y) := by
  unfold strContains
  rw [strData_append, strData_append]
  obtain ⟨t, ht⟩ := h
  exact ⟨[], t ++ w.data, by simp [← ht]⟩

/- ## Claims about the options builders -/

/-- C6: for both Chromium-family builders, `build true` contains the headless
flag `--headless=new` and the sandbox-disable flag `--no-sandbox`, while
`build false` omits the headless flag but still contains `--no-sandbox` and
`--disable-dev-shm-usage`: the container-safety flags are unconditional. -/
theorem chromium_builders_container_safety_flags :
    ("--headless=new" ∈ ChromeOptionsBuilder.build true ∧
     "--no-sandbox" ∈ ChromeOptionsBuilder.build true ∧
     "--headless=new" ∉ ChromeOptionsBuilder.build false ∧
     "--no-sandbox" ∈ ChromeOptionsBuilder.build false ∧
     "--disable-dev-shm-usage" ∈ ChromeOptionsBuilder.build false ∧
     "--disable-dev-shm-usage" ∈ ChromeOptionsBuilder.build true) ∧
    ("--headless=new" ∈ EdgeOptionsBuilder.build true ∧
     "--no-sandbox" ∈ EdgeOptionsBuilder.build true ∧
     "--headless=new" ∉ EdgeOptionsBuilder.build false ∧
     "--no-sandbox" ∈ EdgeOptionsBuilder.build false ∧
     "--disable-dev-shm-usage" ∈ EdgeOptionsBuilder.build false ∧
     "--disable-dev-shm-usage" ∈ EdgeOptionsBuilder.build true) := by
  decide

/-- C7 counterexample: the claim says `build(headless=True)` of the Chromium
builders contains a GPU-disable flag `--disable-gpu`; in fact neither
`ChromeOptionsBuilder.build` nor `EdgeOptionsBuilder.build` ever adds it. -/
theorem builders_no_disable_gpu_counterexample :
    "--disable-gpu" ∉ ChromeOptionsBuilder.build true ∧
    "--disable-gpu" ∉ EdgeOptionsBuilder.build true := by
  decide

/-- C7 amended: `build(headless=True)` of the Chromium-family builders
contains the browser's headless flag `--headless=new`, but no GPU-disable
flag: the builders never add `--disable-gpu`. -/
theorem builders_headless_flag_without_gpu :
    ("--headless=new" ∈ ChromeOptionsBuilder.build true ∧
     "--disable-gpu" ∉ ChromeOptionsBuilder.build true ∧
     "--disable-gpu" ∉ ChromeOptionsBuilder.build false) ∧
    ("--headless=new" ∈ EdgeOptionsBuilder.build true ∧
     "--disable-gpu" ∉ EdgeOptionsBuilder.build true ∧
     "--disable-gpu" ∉ EdgeOptionsBuilder.build false) := by
  decide

/- ## Claims about the browser factory -/

/-- C4: every browser name whose normalized form is outside
`{chrome, firefox, edge}` makes `BrowserFactory.create` fail with an error
message naming all the valid browser names, and every name whose normalized
form is in the supported set raises no such error. -/
theorem create_validates_browser_name (s : String) :
    (pyNormalize s ∉ BrowserFactory.SUPPORTED_BROWSERS →
      ∃ msg, BrowserFactory.create s = .error msg ∧
        ∀ v ∈ BrowserFactory.SUPPORTED_BROWSERS, strContains msg v) ∧
    (pyNormalize s ∈ BrowserFactory.SUPPORTED_BROWSERS →
      ∀ msg, BrowserFactory.create s ≠ .error msg) := by
  constructor
  · intro hmem
    refine ⟨"Unsupported browser: '" ++ pyNormalize s ++ "'. Valid options: " ++
      String.intercalate ", " BrowserFactory.SUPPORTED_BROWSERS, ?_, ?_⟩
    · simp [BrowserFactory.create, hmem]
    · intro v hv
      apply strContains_append_left
      have hv3 : v = "chrome" ∨ v = "firefox" ∨ v = "edge" := by
        simpa [BrowserFactory.SUPPORTED_BROWSERS] using hv
      rcases hv3 with h | h | h <;> subst h <;> decide
  · intro hmem msg
    have hb : pyNormalize s = "chrome" ∨ pyNormalize s = "firefox" ∨
        pyNormalize s = "edge" := by
      simpa [BrowserFactory.SUPPORTED_BROWSERS] using hmem
    rcases hb with hb | hb | hb <;>
      simp [BrowserFactory.create, BrowserFactory.SUPPORTED_BROWSERS, hb]

/-- C4 witness: "safari" is rejected with a message naming chrome, firefox
and edge; "chrome" raises no error. -/
theorem create_validates_browser_name_witness :
    (∃ msg, BrowserFactory.create "safari" = .error msg ∧
      ∀ v ∈ BrowserFactory.SUPPORTED_BROWSERS, strContains msg v) ∧
    (∀ msg, BrowserFactory.create "chrome" ≠ .error msg) :=
  ⟨(create_validates_browser_name "safari").1 (by decide),
   (create_validates_browser_name "chrome").2 (by decide)⟩

/-- C10: any input whose normalized (lowercased, stripped) form is a
supported browser name is dispatched exactly as the canonical name is, and
is accepted. -/
theorem create_normalizes_case_whitespace (s : String)
    (h : pyNormalize s ∈ BrowserFactory.SUPPORTED_BROWSERS) :
    BrowserFactory.create s = BrowserFactory.create (pyNormalize s) ∧
    ∃ k, BrowserFactory.create s = .ok (some k) := by
  have hb : pyNormalize s = "chrome" ∨ pyNormalize s = "firefox" ∨
      pyNormalize s = "edge" := by
    simpa [BrowserFactory.SUPPORTED_BROWSERS] using h
  have h1 : pyNormalize "chrome" = "chrome" := by decide
  have h2 : pyNormalize "firefox" = "firefox" := by decide
  have h3 : pyNormalize "edge" = "edge" := by decide
  rcases hb with hb | hb | hb <;>
    refine ⟨?_, ?_⟩ <;>
    simp [BrowserFactory.create, BrowserFactory.SUPPORTED_BROWSERS, hb, h1,
      h2, h3]

/-- C10 witness: " Chrome " normalizes to "chrome" and is dispatched exactly
as "chrome" is. -/
theorem create_normalizes_case_whitespace_witness :
    pyNormalize " Chrome " ∈ BrowserFactory.SUPPORTED_BROWSERS ∧
    (BrowserFactory.create " Chrome " =
        BrowserFactory.create (pyNormalize " Chrome ") ∧
      ∃ k, BrowserFactory.create " Chrome " = .ok (some k)) :=
  ⟨by decide, create_normalizes_case_whitespace " Chrome " (by decide)⟩

/- ## Claims about the environment config resolver -/

set_option maxRecDepth 8000 in
/-- C1 counterexample: with all three `DEV_*` required variables unset,
`get_config "dev"` fails with an error that names only the first missing
variable (`DEV_BASE_URL`), not the also-missing `DEV_TEST_EMAIL` and
`DEV_TEST_PASSWORD` — refuting the claim that the message names every
missing variable. -/
theorem get_config_error_omits_later_missing_vars :
    get_config [] [] (some "dev") =
      .error "DEV_BASE_URL not found in .env file. Please check your .env configuration." ∧
    pyFalsy (getenv [] "DEV_TEST_EMAIL") = true ∧
    pyFalsy (getenv [] "DEV_TEST_PASSWORD") = true ∧
    ¬ strContains
      "DEV_BASE_URL not found in .env file. Please check your .env configuration."
      "DEV_TEST_EMAIL" ∧
    ¬ strContains
      "DEV_BASE_URL not found in .env file. Please check your .env configuration."
      "DEV_TEST_PASSWORD" := by
  decide

/-- C1 amended: for any valid, uncached environment name with one or more of
its three required variables unset (or empty), `get_config` fails with a
configuration error naming the **first** missing variable in the check order
base URL → test email → test password. -/
theorem get_config_error_names_first_missing
    (env : Env) (cache : ConfigCache) (name : String) (cm : ConfigModule)
    (hmod : import_environment_module (pyNormalize name) = some cm)
    (hcache : cacheLookup cache (pyNormalize name) = none) :
    (pyFalsy (getenv env (pyUpper (pyNormalize name) ++ "_" ++ "BASE_URL")) = true →
      get_config env cache (some name) =
        .error (pyUpper (pyNormalize name) ++ "_" ++ "BASE_URL not found in .env file. " ++
          "Please check your .env configuration.") ∧
      strContains (pyUpper (pyNormalize name) ++ "_" ++ "BASE_URL not found in .env file. " ++
          "Please check your .env configuration.")
        (pyUpper (pyNormalize name) ++ "_" ++ "BASE_URL")) ∧
    (pyFalsy (getenv env (pyUpper (pyNormalize name) ++ "_" ++ "BASE_URL")) = false →
      pyFalsy (getenv env (pyUpper (pyNormalize name) ++ "_" ++ "TEST_EMAIL")) = true →
      get_config env cache (some name) =
        .error (pyUpper (pyNormalize name) ++ "_" ++ "TEST_EMAIL not found in .env file.")) ∧
    (pyFalsy (getenv env (pyUpper (pyNormalize name) ++ "_" ++ "BASE_URL")) = false →
      pyFalsy (getenv env (pyUpper (pyNormalize name) ++ "_" ++ "TEST_EMAIL")) = false →
      pyFalsy (getenv env (pyUpper (pyNormalize name) ++ "_" ++ "TEST_PASSWORD")) = true →
      get_config env cache (some name) =
        .error (pyUpper (pyNormalize name) ++ "_" ++ "TEST_PASSWORD not found in .env file.")) := by
  refine ⟨?_, ?_, ?_⟩
  · intro hb
    constructor
    · simp [get_config, hcache, hmod, hb]
    · exact strContains_append_key _ "BASE_URL"
        "BASE_URL not found in .env file. " _ (by decide)
  · intro hb he
    simp [get_config, hcache, hmod, hb, he]
  · intro hb he hp
    simp [get_config, hcache, hmod, hb, he, hp]

set_option maxRecDepth 2000 in
/-- C1 amended, witness: with only `DEV_TEST_EMAIL` set, `get_config "dev"`
reports `DEV_BASE_URL` (the first missing variable). -/
theorem get_config_error_names_first_missing_witness :
    get_config [("DEV_TEST_EMAIL", "a@b.com")] [] (some "dev") =
      .error (pyUpper (pyNormalize "dev") ++ "_" ++ "BASE_URL not found in .env file. " ++
        "Please check your .env configuration.") ∧
    strContains (pyUpper (pyNormalize "dev") ++ "_" ++ "BASE_URL not found in .env file. " ++
        "Please check your .env configuration.")
      (pyUpper (pyNormalize "dev") ++ "_" ++ "BASE_URL") :=
  (get_config_error_names_first_missing [("DEV_TEST_EMAIL", "a@b.com")] []
    "dev" { IMPLICIT_WAIT := 10, PAGE_LOAD_TIMEOUT := 30, LOG_LEVEL := "INFO" }
    (by decide) (by decide)).1 (by decide)

/-- C9: a required variable that is present but empty is treated by
`get_config` exactly as if it were absent: for each of `<PREFIX>_BASE_URL`,
`<PREFIX>_TEST_EMAIL`, `<PREFIX>_TEST_PASSWORD`, the value being `none` or
`some ""` produces the same `ValueError` naming that variable, because the
check is truthiness-based. -/
theorem get_config_empty_env_var_as_missing
    (env : Env) (cache : ConfigCache) (name : String) (cm : ConfigModule)
    (hmod : import_environment_module (pyNormalize name) = some cm)
    (hcache : cacheLookup cache (pyNormalize name) = none) :
    (getenv env (pyUpper (pyNormalize name) ++ "_" ++ "BASE_URL") = none ∨
        getenv env (pyUpper (pyNormalize name) ++ "_" ++ "BASE_URL") = some "" →
      get_config env cache (some name) =
        .error (pyUpper (pyNormalize name) ++ "_" ++ "BASE_URL not found in .env file. " ++
          "Please check your .env configuration.")) ∧
    (pyFalsy (getenv env (pyUpper (pyNormalize name) ++ "_" ++ "BASE_URL")) = false →
      (getenv env (pyUpper (pyNormalize name) ++ "_" ++ "TEST_EMAIL") = none ∨
        getenv env (pyUpper (pyNormalize name) ++ "_" ++ "TEST_EMAIL") = some "" →
      get_config env cache (some name) =
        .error (pyUpper (pyNormalize name) ++ "_" ++ "TEST_EMAIL not found in .env file."))) ∧
    (pyFalsy (getenv env (pyUpper (pyNormalize name) ++ "_" ++ "BASE_URL")) = false →
      pyFalsy (getenv env (pyUpper (pyNormalize name) ++ "_" ++ "TEST_EMAIL")) = false →
      (getenv env (pyUpper (pyNormalize name) ++ "_" ++ "TEST_PASSWORD") = none ∨
        getenv env (pyUpper (pyNormalize name) ++ "_" ++ "TEST_PASSWORD") = some "" →
      get_config env cache (some name) =
        .error (pyUpper (pyNormalize name) ++ "_" ++ "TEST_PASSWORD not found in .env file."))) := by
  refine ⟨?_, ?_, ?_⟩
  · intro hb
    have hb' : pyFalsy (getenv env
        (pyUpper (pyNormalize name) ++ "_" ++ "BASE_URL")) = true := by
      rcases hb with hb | hb <;> simp [hb, pyFalsy]
    simp [get_config, hcache, hmod, hb']
  · intro hb he
    have he' : pyFalsy (getenv env
        (pyUpper (pyNormalize name) ++ "_" ++ "TEST_EMAIL")) = true := by
      rcases he with he | he <;> simp [he, pyFalsy]
    simp [get_config, hcache, hmod, hb, he']
  · intro hb he hp
    have hp' : pyFalsy (getenv env
        (pyUpper (pyNormalize name) ++ "_" ++ "TEST_PASSWORD")) = true := by
      rcases hp with hp | hp <;> simp [hp, pyFalsy]
    simp [get_config, hcache, hmod, hb, he, hp']

set_option maxRecDepth 2000 in
/-- C9 witness: `DEV_BASE_URL=""` yields the `DEV_BASE_URL` error; with a
non-empty base URL, `DEV_TEST_EMAIL=""` yields the `DEV_TEST_EMAIL` error. -/
theorem get_config_empty_env_var_as_missing_witness :
    (get_config [("DEV_BASE_URL", "")] [] (some "dev") =
      .error (pyUpper (pyNormalize "dev") ++ "_" ++ "BASE_URL not found in .env file. " ++
        "Please check your .env configuration.")) ∧
    (get_config [("DEV_BASE_URL", "https://example.test/login"),
        ("DEV_TEST_EMAIL", "")] [] (some "dev") =
      .error (pyUpper (pyNormalize "dev") ++ "_" ++ "TEST_EMAIL not found in .env file.")) :=
  ⟨(get_config_empty_env_var_as_missing [("DEV_BASE_URL", "")] [] "dev"
      { IMPLICIT_WAIT := 10, PAGE_LOAD_TIMEOUT := 30, LOG_LEVEL := "INFO" }
      (by decide) (by decide)).1 (Or.inr (by decide)),
   (get_config_empty_env_var_as_missing
      [("DEV_BASE_URL", "https://example.test/login"), ("DEV_TEST_EMAIL", "")]
      [] "dev"
      { IMPLICIT_WAIT := 10, PAGE_LOAD_TIMEOUT := 30, LOG_LEVEL := "INFO" }
      (by decide) (by decide)).2.1 (by decide) (Or.inr (by decide))⟩

/-- C5: once `get_config` has succeeded for a name, any later call whose
argument normalizes to the same name returns the identical cached record and
the unchanged cache, regardless of the environment state at the time of the
second call (no environment variable is re-read). -/
theorem get_config_cache_stable
    (env env2 : Env) (cache cache2 : ConfigCache) (name name2 : String)
    (c : EnvironmentConfig)
    (hfirst : get_config env cache (some name) = .ok (c, cache2))
    (hsame : pyNormalize name2 = pyNormalize name) :
    get_config env2 cache2 (some name2) = .ok (c, cache2) := by
  have hkey : cacheLookup cache2 (pyNormalize name) = some c := by
    simp only [get_config] at hfirst
    cases h1 : cacheLookup cache (pyNormalize name) with
    | some c0 =>
        simp only [h1] at hfirst
        cases hfirst
        exact h1
    | none =>
        simp only [h1] at hfirst
        cases h2 : import_environment_module (pyNormalize name) with
        | none => simp [h2] at hfirst
        | some cm =>
            simp only [h2] at hfirst
            split at hfirst
            · cases hfirst
            · split at hfirst
              · cases hfirst
              · split at hfirst
                · cases hfirst
                · cases hfirst
                  simp [cacheLookup]
  simp [get_config, hsame, hkey]

set_option maxRecDepth 2000 in
/-- C5 witness: after resolving "dev" from `envDev`, a second call for
" DEV " against an **empty** environment still returns the identical cached
record. -/
theorem get_config_cache_stable_witness :
    get_config envDev [] (some "dev") = .ok (cfgDev, [("dev", cfgDev)]) ∧
    pyNormalize " DEV " = pyNormalize "dev" ∧
    get_config [] [("dev", cfgDev)] (some " DEV ") = .ok (cfgDev, [("dev", cfgDev)]) :=
  ⟨by decide, by decide,
   get_config_cache_stable envDev [] [] [("dev", cfgDev)] "dev" " DEV " cfgDev
     (by decide) (by decide)⟩

/-- C8: with `DEV_BASE_URL`, `DEV_TEST_EMAIL` and `DEV_TEST_PASSWORD` set,
`get_config "dev"` succeeds with `base_url = "https://example.test/login"`;
the variable prefix is the uppercased normalized name plus underscore. -/
theorem get_config_dev_scenario :
    get_config envDev [] (some "dev") = .ok (cfgDev, [("dev", cfgDev)]) ∧
    cfgDev.base_url = "https://example.test/login" ∧
    pyUpper (pyNormalize "dev") ++ "_" = "DEV_" := by
  refine ⟨by decide, by decide, by decide⟩

/- ## Claims about the driver lifecycle manager -/

/-- C2: on a not-yet-started manager, `start` creates the session via the
factory with the configured browser and headless flag, applies
`implicit_wait` and `page_load_timeout` from the config, navigates to
`base_url` and maximizes the window — exactly these effects, in this order —
and returns the session; called while already started, it fails with the
RuntimeError and leaves the original session reference unchanged. -/
theorem DriverManager_start_spec (m : DriverManager) (s : Session) :
    (m._driver = none →
      m.start s =
        (.ok s, { m with _driver := some s },
         [.create m.browser m.headless,
          .implicitly_wait m.config.implicit_wait,
          .set_page_load_timeout m.config.page_load_timeout,
          .get m.config.base_url,
          .maximize_window])) ∧
    (∀ s0, m._driver = some s0 →
      m.start s =
        (.error "Driver already started. Call stop() before starting again.",
         m, []) ∧
      (m.start s).2.1._driver = some s0) := by
  constructor
  · intro h
    simp [DriverManager.start, h]
  · intro s0 h
    simp [DriverManager.start, h]

/-- C2 witness: a fresh manager starts with the full ordered effect trace; a
running manager errors and keeps its session. -/
theorem DriverManager_start_spec_witness :
    (mgrFresh._driver = none ∧
      mgrFresh.start 1 =
        (.ok 1, { mgrFresh with _driver := some 1 },
         [.create mgrFresh.browser mgrFresh.headless,
          .implicitly_wait mgrFresh.config.implicit_wait,
          .set_page_load_timeout mgrFresh.config.page_load_timeout,
          .get mgrFresh.config.base_url,
          .maximize_window])) ∧
    (mgrRunning._driver = some 5 ∧
      mgrRunning.start 2 =
        (.error "Driver already started. Call stop() before starting again.",
         mgrRunning, []) ∧
      (mgrRunning.start 2).2.1._driver = some 5) :=
  ⟨⟨rfl, (DriverManager_start_spec mgrFresh 1).1 rfl⟩,
   ⟨rfl, (DriverManager_start_spec mgrRunning 2).2 5 rfl⟩⟩

/-- C3: `stop` is idempotent and never raises (its result type has no error
channel): with no started session it is a no-op; it always clears the
session reference to `none`, so a second `stop` is a no-op; with a started
session it attempts `quit`, and an exception from `quit` is reported only as
a warning in the trace while the reference is still cleared. -/
theorem DriverManager_stop_idempotent (m : DriverManager) (qe : Option String) :
    (m._driver = none → m.stop qe = (m, [])) ∧
    (m.stop qe).1._driver = none ∧
    (∀ qe2, ((m.stop qe).1).stop qe2 = ((m.stop qe).1, [])) ∧
    (∀ s, m._driver = some s → DriverAction.quit ∈ (m.stop qe).2) ∧
    (∀ s e, m._driver = some s → qe = some e →
      m.stop qe = ({ m with _driver := none },
        [.quit, .warn ("Warning: Error during driver cleanup: " ++ e)])) := by
  cases h : m._driver with
  | none => cases qe <;> simp [DriverManager.stop, h]
  | some s => cases qe <;> simp [DriverManager.stop, h]

/-- C3 witness: stopping a running manager whose `quit` raises "boom" clears
the reference, emits the warning, and a second `stop` is a no-op. -/
theorem DriverManager_stop_idempotent_witness :
    (mgrRunning.stop (some "boom")).1._driver = none ∧
    ((mgrRunning.stop (some "boom")).1).stop none =
      ((mgrRunning.stop (some "boom")).1, []) ∧
    DriverAction.quit ∈ (mgrRunning.stop (some "boom")).2 ∧
    mgrRunning.stop (some "boom") =
      ({ mgrRunning with _driver := none },
       [.quit, .warn ("Warning: Error during driver cleanup: " ++ "boom")]) ∧
    ({ mgrRunning with _driver := none } : DriverManager).stop none =
      ({ mgrRunning with _driver := none }, []) :=
  ⟨(DriverManager_stop_idempotent mgrRunning (some "boom")).2.1,
   (DriverManager_stop_idempotent mgrRunning (some "boom")).2.2.1 none,
   (DriverManager_stop_idempotent mgrRunning (some "boom")).2.2.2.1 5 rfl,
   (DriverManager_stop_idempotent mgrRunning (some "boom")).2.2.2.2 5 "boom" rfl rfl,
   (DriverManager_stop_idempotent { mgrRunning with _driver := none } none).1 rfl⟩
